import Mathlib

/-!
Verification of the normalization-pipeline specification for the
Filipino-emigration dashboard (src/app.py).  The definitions below are a
shallow embedding of the pandas cleaning code: cells are untyped values
(missing, string, or number), tables are header lists plus row lists, and
each dataset pipeline is translated stage by stage from the source.
-/

/-- A decimal number man / 10 ^ exp: an exact model of the float values
pandas produces for the decimal literals these sheets contain.  The zero
test and the astype(int) truncation below are exactly the operations the
source applies to those values, and both are exact on decimals. -/
structure Dec where
  man : Int
  exp : Nat
deriving DecidableEq, Repr

/-- The decimal holding an integer. -/
def Dec.ofInt (n : Int) : Dec := { man := n, exp := 0 }

/-- Mathematical zero test (the comparison sum != 0 of the source). -/
def Dec.isZero (d : Dec) : Bool := d.man == 0

/-- Exact addition on a common power-of-ten denominator. -/
def Dec.add (a b : Dec) : Dec :=
  { man := a.man * ((10 ^ (max a.exp b.exp - a.exp) : Nat) : Int) +
      b.man * ((10 ^ (max a.exp b.exp - b.exp) : Nat) : Int),
    exp := max a.exp b.exp }

/-- numpy astype(int): truncation toward zero. -/
def Dec.trunc (d : Dec) : Int :=
  if 0 ≤ d.man then ((d.man.toNat / 10 ^ d.exp : Nat) : Int)
  else -(((-d.man).toNat / 10 ^ d.exp : Nat) : Int)

/-- Decimal rendering with an explicit point, as astype(str) shows these
values. -/
def decRepr (d : Dec) : String :=
  if d.exp = 0 then toString d.man
  else
    let ds := (toString d.man.natAbs).data
    let padded := List.replicate (d.exp + 1 - ds.length) '0' ++ ds
    let i := padded.length - d.exp
    String.mk ((if d.man < 0 then ['-'] else []) ++
      (padded.take i ++ '.' :: padded.drop i))

/-- A raw spreadsheet cell: missing (pandas NaN), a string, or a number. -/
inductive Cell where
  | empty : Cell
  | str : String → Cell
  | num : Dec → Cell
deriving DecidableEq, Repr

/-- True exactly on missing cells; models pandas isna. -/
def Cell.isNa : Cell → Bool
  | Cell.empty => true
  | _ => false

/-- Models pandas astype(str): NaN prints as "nan". -/
def cellToStr : Cell → String
  | Cell.empty => "nan"
  | Cell.str s => s
  | Cell.num d => decRepr d

/-- ASCII digit test, as used by the regex digit class in the source. -/
def isDigitB (c : Char) : Bool :=
  decide (48 ≤ c.toNat) && decide (c.toNat ≤ 57)

/-- ASCII upper-casing of one character; models Python str.upper on the
ASCII labels this data contains. -/
def upChar (c : Char) : Char :=
  if 97 ≤ c.toNat ∧ c.toNat ≤ 122 then Char.ofNat (c.toNat - 32) else c

/-- Upper-case a whole string. -/
def upperStr (s : String) : String := String.mk (s.data.map upChar)

/-- Does the pattern occur as a leading block of the text? -/
def matchesAt : List Char → List Char → Bool
  | [], _ => true
  | _ :: _, [] => false
  | p :: ps, c :: cs => (p == c) && matchesAt ps cs

/-- Substring occurrence test over character lists. -/
def containsSub (pat : List Char) : List Char → Bool
  | [] => pat.isEmpty
  | c :: t => matchesAt pat (c :: t) || containsSub pat t

/-- Case-insensitive substring containment; models
pandas Series.str.contains(tok, case=False) for a plain token. -/
def containsCI (s pat : String) : Bool :=
  containsSub (upperStr pat).data (upperStr s).data

/-- ASCII whitespace test used by the strip operations. -/
def isSpaceB (c : Char) : Bool :=
  c == ' ' || c == '\t' || c == '\n' || c == '\r'

/-- Remove leading and trailing whitespace from a character list. -/
def trimChars (cs : List Char) : List Char :=
  ((cs.dropWhile isSpaceB).reverse.dropWhile isSpaceB).reverse

/-- Python str.strip. -/
def trimStr (s : String) : String := String.mk (trimChars s.data)

/-- Python str.startswith, alias an anchored regex match. -/
def startsWithB (s pat : String) : Bool := matchesAt pat.data s.data

/-- Value of a digit list read in base 10. -/
def natOfDigits (cs : List Char) : Nat :=
  cs.foldl (fun a c => a * 10 + (c.toNat - 48)) 0

/-- Parse an unsigned decimal literal: digits with an optional
fractional part. -/
def parseUnsigned (cs : List Char) : Option Dec :=
  let intPart := cs.takeWhile isDigitB
  let rest := cs.dropWhile isDigitB
  match rest with
  | [] =>
    if intPart.isEmpty then none
    else some { man := (natOfDigits intPart : Int), exp := 0 }
  | '.' :: frac =>
    if frac.all isDigitB && !(intPart.isEmpty && frac.isEmpty) then
      some { man := (natOfDigits (intPart ++ frac) : Int), exp := frac.length }
    else none
  | _ => none

/-- Numeric parse of a string, modelling pandas to_numeric on the data
these sheets contain: optional sign, digits, an optional fractional
part, surrounding blanks. -/
def strToNum (s : String) : Option Dec :=
  match trimChars s.data with
  | '-' :: rest => (parseUnsigned rest).map (fun d => { man := -d.man, exp := d.exp })
  | cs => parseUnsigned cs

/-- pandas to_numeric(errors="coerce") per cell: numbers pass through,
numeric strings parse, everything else is NaN. -/
def toNumeric : Cell → Option Dec
  | Cell.num d => some d
  | Cell.str s => strToNum s
  | Cell.empty => none

/-- to_numeric(errors="coerce") followed by fillna(0): the zero-fill
coercion used by every Numeric column of the pipelines. -/
def coerceFillZero (c : Cell) : Dec :=
  (toNumeric c).getD (Dec.ofInt 0)

/-- to_numeric(errors="coerce") kept as a cell (NaN survives). -/
def coerceCell (c : Cell) : Cell :=
  match toNumeric c with
  | some n => Cell.num n
  | none => Cell.empty

/-- fillna(0) on an already-numeric column. -/
def fillZeroCell (c : Cell) : Cell :=
  match c with
  | Cell.empty => Cell.num (Dec.ofInt 0)
  | c => c

/-- Numeric value of a cell with missing read as zero. -/
def cellNumVal : Cell → Dec
  | Cell.num d => d
  | _ => Dec.ofInt 0

/-- A dataframe: ordered column labels plus rows of cells. -/
structure Table where
  headers : List String
  rows : List (List Cell)
deriving DecidableEq, Repr

/-- The table a failed sheet degrades to. -/
def emptyTable : Table := { headers := [], rows := [] }

/-- Cell of a row at a column index, missing when out of range. -/
def getCell (r : List Cell) (j : Nat) : Cell := r.getD j Cell.empty

/-- A row that is empty in every column. -/
def rowAllNa (r : List Cell) : Bool := r.all Cell.isNa

/-- pandas dropna(how="all") on rows. -/
def dropNaRows (rows : List (List Cell)) : List (List Cell) :=
  rows.filter (fun r => !rowAllNa r)

/-- Keep the entries of a list marked true in the mask. -/
def selIdx (keep : List Bool) (r : List α) : List α :=
  (r.zip keep).filterMap (fun p => if p.2 then some p.1 else none)

/-- pandas dropna(axis=1, how="all"): keep a column when some row has a
value there. -/
def dropNaCols (t : Table) : Table :=
  let mask := (List.range t.headers.length).map
    (fun j => t.rows.any (fun r => !(getCell r j).isNa))
  { headers := selIdx mask t.headers, rows := t.rows.map (selIdx mask) }

/-- The key column (position 0) of a row, read as a string. -/
def keyString (r : List Cell) : String := cellToStr (getCell r 0)

/-- astype(str).str.strip() applied to the key column. -/
def stripKey (r : List Cell) : List Cell :=
  Cell.str (trimStr (cellToStr (getCell r 0))) :: r.drop 1

/-- Coerce every non-key cell with the zero-fill integer coercion, as in
apply(to_numeric, errors="coerce").fillna(0).astype(int). -/
def coerceRowInt (r : List Cell) : List Cell :=
  match r with
  | [] => []
  | k :: rest =>
    k :: rest.map (fun c => Cell.num (Dec.ofInt (Dec.trunc (coerceFillZero c))))

/-- Coerce every non-key cell with to_numeric(errors="coerce"), NaN kept. -/
def coerceRowNumeric (r : List Cell) : List Cell :=
  match r with
  | [] => []
  | k :: rest => k :: rest.map coerceCell

/-- fillna(0) on the non-key cells of a row. -/
def fillRow (r : List Cell) : List Cell :=
  match r with
  | [] => []
  | k :: rest => k :: rest.map fillZeroCell

/-- Sum of the non-key cells of a row, missing read as zero: the quantity
tested by the place-of-origin zero-row filter.  It is computed on the
coerced (still fractional) values, before any astype(int) truncation. -/
def rowNumSum (r : List Cell) : Dec :=
  (r.drop 1).foldl (fun a c => Dec.add a (cellNumVal c)) (Dec.ofInt 0)

/-- Append a derived Total cell holding the row sum. -/
def addTotal (r : List Cell) : List Cell :=
  r ++ [Cell.num (rowNumSum r)]

/-- drop_duplicates on the key column, keeping the first occurrence. -/
def dedupFirst : List (List Cell) → List String → List (List Cell)
  | [], _ => []
  | r :: rs, seen =>
    if keyString r ∈ seen then dedupFirst rs seen
    else r :: dedupFirst rs (keyString r :: seen)

/-! ### AllCountries pipeline (display_country_data, app.py lines 151-168) -/

/-- The AllCountries denylist test: COUNTRY contains TOTAL, OTHERS or
UNKNOWN, case-insensitively, as a substring (line 160). -/
def denyCountry (s : String) : Bool :=
  containsCI s "TOTAL" || containsCI s "OTHERS" || containsCI s "UNKNOWN"

/-- Lines 151-159: dropna on rows then columns, drop rows with a missing
key, stringify and strip the key. -/
def countryStage2 (t : Table) : List (List Cell) :=
  ((dropNaCols { headers := t.headers, rows := dropNaRows t.rows }).rows.filter
    (fun r => !(getCell r 0).isNa)).map stripKey

/-- Line 160: remove denylisted keys. -/
def countryStage3 (t : Table) : List (List Cell) :=
  (countryStage2 t).filter (fun r => !denyCountry (keyString r))

/-- Lines 162-165: integer zero-fill coercion of every non-key column. -/
def countryStage4 (t : Table) : List (List Cell) :=
  (countryStage3 t).map coerceRowInt

/-- Header bookkeeping of lines 152-156 and 168: map(str) happened on
load, the first column is renamed COUNTRY when absent, and the derived
Total_Emigrants column is appended. -/
def countryHeaders (t : Table) : List String :=
  let h1 := (dropNaCols { headers := t.headers, rows := dropNaRows t.rows }).headers
  (if h1.contains "COUNTRY" then h1 else "COUNTRY" :: h1.drop 1) ++ ["Total_Emigrants"]

/-- The cleaned AllCountries table: the stages above, then
drop_duplicates on COUNTRY keeping the first occurrence (line 167) and
the appended per-row total (line 168). -/
def countryClean (t : Table) : Table :=
  { headers := countryHeaders t,
    rows := (dedupFirst (countryStage4 t) []).map addTotal }

/-! ### Age pipeline (display_age_data, app.py lines 77-89) -/

/-- Lines 78-79: read with header row 2 and stringified column labels;
no pruning of any kind is applied. -/
def ageClean (g : List (List Cell)) : Table :=
  { headers := (g.getD 2 []).map cellToStr, rows := g.drop 3 }

/-- One melted record: (Key value, former column name, cell). -/
structure LongRec where
  entity : String
  year : String
  value : Cell
deriving DecidableEq, Repr

/-- pandas melt with the first column as id_vars: one record per
(row, non-key column) pair, pairing column names with cells. -/
def meltRow (hs : List String) (r : List Cell) : List LongRec :=
  ((hs.drop 1).zip (r.drop 1)).map
    (fun q => { entity := keyString r, year := q.1, value := q.2 })

/-- Melt every row of a table. -/
def meltRows (hs : List String) (rows : List (List Cell)) : List LongRec :=
  rows.flatMap (meltRow hs)

/-- Column names that are literal four-digit years, the filter
str.match applied on line 88. -/
def isYearName (s : String) : Bool :=
  s.length == 4 && s.data.all isDigitB

/-- Lines 87-88: melt the table and keep only the records whose former
column name is a four-digit year. -/
def reshapeYears (t : Table) : List LongRec :=
  (meltRows t.headers t.rows).filter (fun lr => isYearName lr.year)

/-! ### Header overrides (lines 247-254 and 352-358 and analogues) -/

/-- display_major_country_data lines 252-253: the canonical list replaces
the labels exactly when the column count equals the list length. -/
def overrideEq (expected labels : List String) : List String :=
  if labels.length = expected.length then expected else labels

/-- display_occu_data lines 356-358 (same shape in the Sex, CivilStatus
and Educ pipelines): when at least as many columns as names were
detected, truncate to the first names-many columns and rename; otherwise
leave the table alone. -/
def overrideTrunc (expected : List String) (t : Table) : Table :=
  if expected.length ≤ t.headers.length then
    { headers := expected, rows := t.rows.map (fun r => r.take expected.length) }
  else t

/-- The canonical MajorCountry column list (lines 247-251). -/
def majorExpected : List String :=
  ["YEAR", "USA", "CANADA", "JAPAN", "AUSTRALIA", "ITALY",
   "NEW_ZEALAND", "UNITED_KINGDOM", "GERMANY", "SOUTH_KOREA",
   "SPAIN", "OTHERS", "TOTAL", "_Inc_Dec"]

/-- The canonical Occupation column list (lines 352-354). -/
def occuExpected : List String :=
  "MAJOR_OCCUPATION_GROUP" :: ((List.range 40).map (fun i => toString (1981 + i))) ++ ["TOTAL"]

/-- The canonical CivilStatus column list (lines 621-624). -/
def civilExpected : List String :=
  ["YEAR", "Single", "Married", "Widower", "Separated",
   "Divorced", "Not_Reported", "TOTAL"]

/-! ### CivilStatus pipeline (display_civil_data, app.py lines 615-636) -/

/-- The cleaned CivilStatus table shown by show_df_info: dropna on
columns then rows, the truncating header override, missing-key filter,
key strip, and integer zero-fill coercion.  No deduplication of key
values occurs anywhere in this pipeline. -/
def civilClean (t : Table) : Table :=
  let ta := dropNaCols t
  let t1 : Table := { headers := ta.headers, rows := dropNaRows ta.rows }
  let t2 := overrideTrunc civilExpected t1
  let rows3 := (t2.rows.filter (fun r => !(getCell r 0).isNa)).map stripKey
  { headers := t2.headers, rows := rows3.map coerceRowInt }

/-! ### Sex-ratio decomposition (display_sex_data, app.py lines 496-508) -/

/-- The first maximal digit run anywhere in the text: the semantics of
Series.str.extract with pattern group (\d+). -/
def firstDigitRun : List Char → Option (List Char)
  | [] => none
  | c :: t => if isDigitB c then some (c :: t.takeWhile isDigitB) else firstDigitRun t

/-- Leading value of str.extract((\d+)) read as a natural number. -/
def extractNum (s : String) : Option Nat :=
  (firstDigitRun s.data).map natOfDigits

/-- Lines 497-503 plus the fillna(0) of line 508: the extracted digit
run divided by 100, and 0 when the extract produced no match. -/
def sexRatioOf (s : String) : Rat :=
  match extractNum s with
  | some n => (n : Rat) / 100
  | none => 0

/-! ### Occupation grouping (display_occu_data, app.py lines 381-408) -/

/-- The configured Employed group list (lines 381-390). -/
def employedList : List String :=
  ["Prof\x27l, Tech\x27l, & Related Workers",
   "Managerial, Executive, and Administrative Workers",
   "Clerical Workers",
   "Sales Workers",
   "Service Workers",
   "Agri, Animal Husbandry, Forestry Workers & Fishermen",
   "Production Process, Transport Equipment Operators, & Laborers",
   "Members of the Armed Forces"]

/-- The configured Unemployed group list (lines 392-400). -/
def unemployedList : List String :=
  ["Housewives",
   "Retirees",
   "Students",
   "Minors (Below 7 years old)",
   "Out of School Youth",
   "Refugees",
   "No Occupation Reported"]

/-- Lines 403-405: exact membership classification of a Key label; None
models the untagged (unclassified) case. -/
def classifyOccu (x : String) : Option String :=
  if x ∈ employedList then some "Employed"
  else if x ∈ unemployedList then some "Unemployed"
  else none

/-- Line 403: the CATEGORY cell appended to each row of the base table. -/
def appendCategory (r : List Cell) : List Cell :=
  r ++ [match classifyOccu (keyString r) with
        | some g => Cell.str g
        | none => Cell.empty]

/-- The base cleaned table after line 403: every row kept, with its
CATEGORY column added. -/
def occuBase (t : Table) : Table :=
  { headers := t.headers ++ ["CATEGORY"], rows := t.rows.map appendCategory }

/-- Line 408: the group-comparison view keeps the categorized rows whose
CATEGORY is present and whose label does not contain TOTAL. -/
def occuFiltered (t : Table) : List (List Cell) :=
  (t.rows.map appendCategory).filter
    (fun r => !(getCell r (r.length - 1)).isNa && !containsCI (keyString r) "TOTAL")

/-! ### Place-of-origin multi-sheet pipeline (clean_sheet and
display_place_data, app.py lines 835-909) -/

/-- Lines 839-844 header sanitization: astype(str), strip, and the
trailing ".0" artifact removed. -/
def sanitizeHeader1 (c : Cell) : String :=
  let cs := trimChars (cellToStr c).data
  String.mk (match cs.reverse with
             | '0' :: '.' :: rest => rest.reverse
             | _ => cs)

/-- Lines 851-855: punctuation characters removed, spaces replaced by
underscores, then stripped. -/
def sanitizeHeader2 (s : String) : String :=
  trimStr (String.mk ((s.data.filter
      (fun c => !(['*', '%', '(', ')', '.'].contains c))).map
      (fun c => if c = ' ' then '_' else c)))

/-- Lines 837-867 of clean_sheet: header extraction at row 2, column
pruning, key stringify and strip, the nan-key and Region-key filters,
and per-column numeric coercion.  None marks the paths on which the
Python body raises (fewer than three rows, no remaining column, or no
remaining data row when every all-NaN column, key included, has been
dropped) and the except branch returns an empty frame. -/
def sheetPrep (sheetName : String) (g : List (List Cell)) :
    Option (List String × List (List Cell)) :=
  if g.length < 3 then none else
  let names1 := (g.getD 2 []).map sanitizeHeader1
  let mask := names1.map (fun s => !startsWithB s "Unnamed" && !(trimStr s == ""))
  let names2 := (selIdx mask names1).map sanitizeHeader2
  let data1 := (g.drop 3).map (selIdx mask)
  if names2.isEmpty then none else
  let data2 := data1.map stripKey
  let data3 := data2.filter (fun r => !(upperStr (keyString r) == "NAN"))
  let data4 :=
    if sheetName = "REGION" then data3
    else data3.filter (fun r => !startsWithB (upperStr (keyString r)) "REGION")
  let data5 := data4.map coerceRowNumeric
  if data5.isEmpty then none else
  let mask2 := (List.range names2.length).map
    (fun j => data5.any (fun r => !(getCell r j).isNa))
  some (selIdx mask2 names2, data5.map (selIdx mask2))

/-- numpy astype(int) applied to the numeric cells of a row. -/
def truncCell (c : Cell) : Cell :=
  match c with
  | Cell.num d => Cell.num (Dec.ofInt (Dec.trunc d))
  | c => c

/-- astype(int) over the non-key cells of a row. -/
def truncRow (r : List Cell) : List Cell :=
  match r with
  | [] => []
  | k :: rest => k :: rest.map truncCell

/-- Line 870 and the fillna(0) of line 873: keep only rows whose non-key
float sum (missing as zero) is nonzero, then zero-fill the numeric
cells.  The sum filter runs before any truncation. -/
def sheetKept (rows : List (List Cell)) : List (List Cell) :=
  (rows.filter (fun r => !(rowNumSum r).isZero)).map fillRow

/-- Lines 869-873: the kept rows with the astype(int) truncation of
line 873 applied after the zero-sum filter. -/
def sheetFinish (rows : List (List Cell)) : List (List Cell) :=
  (sheetKept rows).map truncRow

/-- clean_sheet: the prepared sheet finished into a table, or None on
the raising paths that the except branch turns into an empty frame. -/
def cleanSheetCore (sheetName : String) (g : List (List Cell)) : Option Table :=
  (sheetPrep sheetName g).map (fun p => { headers := p.1, rows := sheetFinish p.2 })

/-- One raw worksheet of the place-of-origin workbook. -/
structure RawSheet where
  name : String
  grid : List (List Cell)
deriving DecidableEq, Repr

/-- Per-sheet outcome surfaced by display_place_data: the cleaned table,
and whether a warning or error message was reported for the sheet
(lines 880-882 and 906-909; an empty clean result also warns). -/
structure SheetResult where
  name : String
  table : Table
  warned : Bool
deriving DecidableEq, Repr

/-- Process one sheet: a raising clean degrades to the empty table with
a report; an empty clean result is reported as a warning. -/
def processSheet (s : RawSheet) : SheetResult :=
  match cleanSheetCore s.name s.grid with
  | some t => { name := s.name, table := t, warned := t.rows.isEmpty }
  | none => { name := s.name, table := emptyTable, warned := true }

/-- Lines 885-909: every sheet of the workbook is processed with the
same per-sheet pipeline, independently. -/
def displayPlace (sheets : List RawSheet) : List SheetResult :=
  sheets.map processSheet

/-! ### Concrete example data used by the claim theorems -/

/-- A place-of-origin sheet whose only data row is keyed GRAND TOTAL. -/
def c1Grid : List (List Cell) :=
  [[Cell.empty], [Cell.empty],
   [Cell.str "PROVINCE", Cell.str "1988"],
   [Cell.str "GRAND TOTAL", Cell.num (Dec.ofInt 5)]]

/-- An AllCountries table holding two denylisted keys and one real key. -/
def c1CountryTable : Table :=
  { headers := ["COUNTRY", "1981"],
    rows := [[Cell.str "GRAND TOTAL", Cell.num (Dec.ofInt 9)],
             [Cell.str "Total Employment Services", Cell.num (Dec.ofInt 4)],
             [Cell.str "Japan", Cell.num (Dec.ofInt 7)]] }

/-- A wide table with a Key column, two year columns and a TOTAL column. -/
def c6Table : Table :=
  { headers := ["AGE", "1990", "1991", "TOTAL"],
    rows := [[Cell.str "0-4", Cell.num (Dec.ofInt 1), Cell.num (Dec.ofInt 2), Cell.num (Dec.ofInt 3)],
             [Cell.str "5-9", Cell.num (Dec.ofInt 4), Cell.num (Dec.ofInt 5), Cell.num (Dec.ofInt 6)]] }

/-- A CivilStatus table with two rows sharing the key 1990. -/
def c8Table : Table :=
  { headers := ["YEAR", "Single"],
    rows := [[Cell.str "1990", Cell.num (Dec.ofInt 1)],
             [Cell.str "1990", Cell.num (Dec.ofInt 2)]] }

/-- An Age grid with a fully-empty data row between real rows. -/
def c9Grid : List (List Cell) :=
  [[Cell.empty, Cell.empty], [Cell.empty, Cell.empty],
   [Cell.str "AGE", Cell.str "1990"],
   [Cell.empty, Cell.empty],
   [Cell.str "0-4", Cell.num (Dec.ofInt 3)]]

/-- A place-of-origin sheet with a genuine all-zero data row (Bohol). -/
def c10Grid : List (List Cell) :=
  [[Cell.empty, Cell.empty, Cell.empty], [Cell.empty, Cell.empty, Cell.empty],
   [Cell.str "PROVINCE", Cell.str "1988", Cell.str "1989"],
   [Cell.str "Cebu", Cell.num (Dec.ofInt 7), Cell.num (Dec.ofInt 0)],
   [Cell.str "Bohol", Cell.num (Dec.ofInt 0), Cell.num (Dec.ofInt 0)]]

/-- A place-of-origin sheet with a purely fractional data row: the
coerced value 0.4 has nonzero sum yet truncates to zero. -/
def c10FracGrid : List (List Cell) :=
  [[Cell.empty, Cell.empty], [Cell.empty, Cell.empty],
   [Cell.str "PROVINCE", Cell.str "1988"],
   [Cell.str "X", Cell.str "0.4"]]

/-- A healthy REGION sheet. -/
def regionSheetEx : RawSheet :=
  { name := "REGION",
    grid := [[Cell.empty, Cell.empty], [Cell.empty, Cell.empty],
             [Cell.str "REGION", Cell.str "1988"],
             [Cell.str "NCR", Cell.num (Dec.ofInt 100)]] }

/-- A PROVINCE sheet that makes clean_sheet raise: fewer than three
rows, so the header access fails. -/
def provinceSheetEx : RawSheet :=
  { name := "PROVINCE", grid := [[Cell.str "x"]] }

/-- A healthy MUNICIPALITY sheet. -/
def muniSheetEx : RawSheet :=
  { name := "MUNICIPALITY",
    grid := [[Cell.empty, Cell.empty], [Cell.empty, Cell.empty],
             [Cell.str "MUNICIPALITY", Cell.str "1988"],
             [Cell.str "Manila", Cell.num (Dec.ofInt 55)]] }

/-- An Occupation table with one label that no group list contains. -/
def occuExTable : Table :=
  { headers := ["MAJOR_OCCUPATION_GROUP", "1981"],
    rows := [[Cell.str "Fisherfolk", Cell.num (Dec.ofInt 1)]] }

/-! ### Shared lemmas -/

lemma mem_of_mem_dedupFirst :
    ∀ (rows : List (List Cell)) (seen : List String) (r : List Cell),
      r ∈ dedupFirst rows seen → r ∈ rows := by
  intro rows
  induction rows with
  | nil => intro seen r h; simp [dedupFirst] at h
  | cons a rs ih =>
    intro seen r h
    by_cases hk : keyString a ∈ seen
    · simp only [dedupFirst, if_pos hk] at h
      exact List.mem_cons_of_mem _ (ih _ _ h)
    · simp only [dedupFirst, if_neg hk, List.mem_cons] at h
      rcases h with h | h
      · exact h ▸ List.mem_cons_self _ _
      · exact List.mem_cons_of_mem _ (ih _ _ h)

lemma dedupFirst_key_not_seen :
    ∀ (rows : List (List Cell)) (seen : List String) (k : String),
      k ∈ seen → k ∉ (dedupFirst rows seen).map keyString := by
  intro rows
  induction rows with
  | nil => intro seen k _; simp [dedupFirst]
  | cons a rs ih =>
    intro seen k hk
    by_cases ha : keyString a ∈ seen
    · simpa only [dedupFirst, if_pos ha] using ih seen k hk
    · simp only [dedupFirst, if_neg ha, List.map_cons, List.mem_cons]
      intro h
      rcases h with h | h
      · exact ha (h ▸ hk)
      · exact ih _ k (List.mem_cons_of_mem _ hk) h

lemma dedupFirst_keys_nodup :
    ∀ (rows : List (List Cell)) (seen : List String),
      ((dedupFirst rows seen).map keyString).Nodup := by
  intro rows
  induction rows with
  | nil => intro seen; simp [dedupFirst]
  | cons a rs ih =>
    intro seen
    by_cases ha : keyString a ∈ seen
    · simpa only [dedupFirst, if_pos ha] using ih seen
    · simp only [dedupFirst, if_neg ha, List.map_cons]
      refine List.nodup_cons.mpr ⟨?_, ih _⟩
      exact dedupFirst_key_not_seen rs _ _ (List.mem_cons_self _ _)

lemma dedupFirst_find? :
    ∀ (rows : List (List Cell)) (seen : List String) (k : String),
      k ∉ seen →
      (dedupFirst rows seen).find? (fun r => keyString r == k) =
        rows.find? (fun r => keyString r == k) := by
  intro rows
  induction rows with
  | nil => intro seen k _; simp [dedupFirst]
  | cons a rs ih =>
    intro seen k hk
    by_cases ha : keyString a ∈ seen
    · have hne : (keyString a == k) = false := by
        refine beq_eq_false_iff_ne.mpr ?_
        intro h; exact hk (h ▸ ha)
      simp only [dedupFirst, if_pos ha, List.find?_cons, hne]
      exact ih seen k hk
    · simp only [dedupFirst, if_neg ha]
      by_cases he : (keyString a == k) = true
      · rw [@List.find?_cons_of_pos _ (fun r => keyString r == k) a
            (dedupFirst rs (keyString a :: seen)) he,
          @List.find?_cons_of_pos _ (fun r => keyString r == k) a rs he]
      · rw [@List.find?_cons_of_neg _ (fun r => keyString r == k) a
            (dedupFirst rs (keyString a :: seen)) he,
          @List.find?_cons_of_neg _ (fun r => keyString r == k) a rs he]
        refine ih _ k ?_
        simp only [List.mem_cons]
        intro h
        rcases h with h | h
        · exact he (by subst h; simp)
        · exact hk h

lemma containsSub_false_of_head (a : Char) (ps : List Char) :
    ∀ hay : List Char, (∀ c ∈ hay, (a == c) = false) →
      containsSub (a :: ps) hay = false := by
  intro hay
  induction hay with
  | nil => intro _; simp [containsSub]
  | cons c t ih =>
    intro h
    simp only [containsSub, matchesAt, h c (List.mem_cons_self _ _),
      Bool.false_and, Bool.false_or]
    exact ih (fun x hx => h x (List.mem_cons_of_mem _ hx))

lemma upChar_of_digit (c : Char) (h : isDigitB c = true) : upChar c = c := by
  have h2 : c.toNat ≤ 57 := by
    simp only [isDigitB, Bool.and_eq_true, decide_eq_true_eq] at h
    exact h.2
  unfold upChar
  rw [if_neg]
  intro hc
  omega

lemma beq_upChar_false (a c : Char) (h : isDigitB c = true)
    (ha : 57 < a.toNat) : (a == upChar c) = false := by
  rw [upChar_of_digit c h]
  refine beq_eq_false_iff_ne.mpr ?_
  intro he
  have : a.toNat = c.toNat := by rw [he]
  simp only [isDigitB, Bool.and_eq_true, decide_eq_true_eq] at h
  omega

lemma containsCI_false_of_year (s pat : String) (h : isYearName s = true)
    (a : Char) (l : List Char) (hp : (upperStr pat).data = a :: l)
    (ha : 57 < a.toNat) : containsCI s pat = false := by
  have hdig : ∀ c ∈ s.data, isDigitB c = true := by
    simp only [isYearName, Bool.and_eq_true, List.all_eq_true] at h
    exact h.2
  unfold containsCI
  rw [hp]
  refine containsSub_false_of_head a l _ ?_
  intro c hc
  simp only [upperStr, String.data] at hc
  rcases List.mem_map.mp hc with ⟨d, hd, hdc⟩
  rw [← hdc]
  exact beq_upChar_false a d (hdig d hd) ha

lemma foldl_add_zeroMan (l : List Cell) :
    ∀ a : Dec, a.man = 0 → (∀ c ∈ l, (cellNumVal c).man = 0) →
      (l.foldl (fun x c => Dec.add x (cellNumVal c)) a).man = 0 := by
  induction l with
  | nil => intro a ha _; exact ha
  | cons c t ih =>
    intro a ha h
    simp only [List.foldl_cons]
    refine ih (Dec.add a (cellNumVal c)) ?_
      (fun x hx => h x (List.mem_cons_of_mem _ hx))
    simp [Dec.add, ha, h c (List.mem_cons_self _ _)]

lemma exists_nonzero_of_sum (l : List Cell)
    (h : (l.foldl (fun x c => Dec.add x (cellNumVal c)) (Dec.ofInt 0)).man ≠ 0) :
    ∃ c ∈ l, (cellNumVal c).man ≠ 0 := by
  by_contra hn
  push_neg at hn
  exact h (foldl_add_zeroMan l (Dec.ofInt 0) rfl hn)

lemma cellNumVal_fillZero (c : Cell) : cellNumVal (fillZeroCell c) = cellNumVal c := by
  cases c <;> rfl

lemma rowNumSum_fillRow (r : List Cell) : rowNumSum (fillRow r) = rowNumSum r := by
  cases r with
  | nil => rfl
  | cons k rest =>
    simp only [fillRow, rowNumSum, List.drop_succ_cons, List.drop_zero,
      List.foldl_map, cellNumVal_fillZero]

lemma filter_year_zip_len (p : String → Bool) (e : String) :
    ∀ (l1 : List String) (l2 : List Cell), l1.length = l2.length →
      (((l1.zip l2).map (fun q => LongRec.mk e q.1 q.2)).filter
        (fun lr => p lr.year)).length = l1.countP p := by
  intro l1
  induction l1 with
  | nil => intro l2 _; simp
  | cons a t ih =>
    intro l2 h
    cases l2 with
    | nil => simp at h
    | cons b t2 =>
      have ht : t.length = t2.length := by
        simpa using h
      simp only [List.zip_cons_cons, List.map_cons, List.filter_cons,
        List.countP_cons]
      by_cases hp : p a = true
      · simp only [hp, if_pos, List.length_cons, ih t2 ht]
      · simp only [hp, Bool.false_eq_true, if_neg, ih t2 ht,
          not_false_eq_true]
        omega

lemma meltRows_year_len (hs : List String) :
    ∀ rows : List (List Cell), (∀ r ∈ rows, r.length = hs.length) →
      ((meltRows hs rows).filter (fun lr => isYearName lr.year)).length =
        rows.length * ((hs.drop 1).countP isYearName) := by
  intro rows
  induction rows with
  | nil => intro _; simp [meltRows]
  | cons r rs ih =>
    intro h
    have hlen : (hs.drop 1).length = (r.drop 1).length := by
      rw [List.length_drop, List.length_drop, h r (List.mem_cons_self _ _)]
    simp only [meltRows] at ih ⊢
    rw [List.flatMap_cons, List.filter_append, List.length_append,
      ih (fun x hx => h x (List.mem_cons_of_mem _ hx))]
    have hrow := filter_year_zip_len isYearName (keyString r)
      (hs.drop 1) (r.drop 1) hlen
    unfold meltRow
    rw [hrow, List.length_cons, Nat.succ_mul, Nat.add_comm]

lemma countryStage2_shape {t : Table} {r : List Cell}
    (h : r ∈ countryStage2 t) : ∃ s tail, r = Cell.str s :: tail := by
  unfold countryStage2 at h
  rcases List.mem_map.mp h with ⟨r0, _, hmap⟩
  unfold stripKey at hmap
  exact ⟨_, _, hmap.symm⟩

lemma sheetKept_mem {rows : List (List Cell)} {r : List Cell}
    (h : r ∈ sheetKept rows) :
    (rowNumSum r).isZero = false ∧
      ∃ c ∈ r.drop 1, (cellNumVal c).isZero = false := by
  unfold sheetKept at h
  rcases List.mem_map.mp h with ⟨r1, hr1, hfill⟩
  have hz1 : (rowNumSum r1).isZero = false := by
    have hp := List.of_mem_filter hr1
    simp only [Bool.not_eq_true'] at hp
    exact hp
  have hr : rowNumSum r = rowNumSum r1 := by
    rw [← hfill, rowNumSum_fillRow]
  refine ⟨by rw [hr]; exact hz1, ?_⟩
  have hman : (rowNumSum r).man ≠ 0 := by
    rw [hr]
    intro hq
    have hz : (rowNumSum r1).isZero = true := by
      simp [Dec.isZero, hq]
    rw [hz] at hz1
    cases hz1
  have hfold : ((r.drop 1).foldl (fun x c => Dec.add x (cellNumVal c))
      (Dec.ofInt 0)).man ≠ 0 := hman
  rcases exists_nonzero_of_sum (r.drop 1) hfold with ⟨c, hc, hcz⟩
  refine ⟨c, hc, ?_⟩
  simp only [Dec.isZero]
  exact beq_eq_false_iff_ne.mpr hcz

lemma getD_append_singleton (r : List Cell) (c : Cell) :
    (r ++ [c]).getD r.length Cell.empty = c := by
  induction r with
  | nil => rfl
  | cons a t ih =>
    simp only [List.cons_append, List.length_cons, List.getD_cons_succ]
    exact ih

/-! ### Claim theorems -/

/-- Claim C1, counterexample: the claim says every pipeline removes any
row whose key contains a denylist token, in particular GRAND TOTAL.  The
place-of-origin cleaning keeps a GRAND TOTAL row: its key does contain
the token TOTAL, yet clean_sheet returns it. -/
theorem claim_C1_counterexample :
    containsCI "GRAND TOTAL" "TOTAL" = true ∧
    (cleanSheetCore "PROVINCE" c1Grid).map (fun t => t.rows.map keyString)
      = some ["GRAND TOTAL"] := by decide

/-- Claim C1, amended: the per-pipeline universal is restricted to the
AllCountries pipeline, whose denylist tokens are TOTAL, OTHERS and
UNKNOWN: no row of its cleaned output has a key containing one of them
(case-insensitively, as a substring), and on a table holding GRAND
TOTAL, Total Employment Services and Japan only Japan survives.  The
counterexample shows the place-of-origin cleaning retaining GRAND
TOTAL, so the removal does not hold for every pipeline. -/
theorem claim_C1_amended :
    (∀ t : Table, ∀ r ∈ (countryClean t).rows,
        denyCountry (keyString r) = false) ∧
    (countryClean c1CountryTable).rows.map keyString = ["Japan"] := by
  constructor
  · intro t r hr
    simp only [countryClean] at hr
    rcases List.mem_map.mp hr with ⟨r1, hr1, hadd⟩
    have hr4 := mem_of_mem_dedupFirst _ _ _ hr1
    unfold countryStage4 at hr4
    rcases List.mem_map.mp hr4 with ⟨r2, hr2, hco⟩
    have hdeny : denyCountry (keyString r2) = false := by
      have hp := List.of_mem_filter hr2
      simp only [Bool.not_eq_true'] at hp
      exact hp
    rcases countryStage2_shape (List.mem_of_mem_filter hr2) with ⟨s, tail, hshape⟩
    subst hshape
    rw [← hadd, ← hco]
    have e2 : keyString (addTotal (coerceRowInt (Cell.str s :: tail)))
        = keyString (Cell.str s :: tail) := rfl
    rw [e2]
    exact hdeny
  · decide

/-- Claim C1 witness: the surviving Japan row of the concrete table is
not denylisted. -/
theorem claim_C1_amended_witness :
    denyCountry (keyString [Cell.str "Japan", Cell.num (Dec.ofInt 7), Cell.num (Dec.ofInt 7)]) = false :=
  claim_C1_amended.1 c1CountryTable
    [Cell.str "Japan", Cell.num (Dec.ofInt 7), Cell.num (Dec.ofInt 7)] (by decide)

/-- Claim C2 (confirmed): a Numeric cell that fails the numeric parse
coerces to exactly zero, the coercion is total (it is a Lean function,
so it never raises), and it preserves the row width, so no field is
omitted. -/
theorem claim_C2_zero_fill :
    (∀ c : Cell, toNumeric c = none → coerceFillZero c = Dec.ofInt 0) ∧
    (∀ r : List Cell, (coerceRowInt r).length = r.length) := by
  constructor
  · intro c h
    simp [coerceFillZero, h]
  · intro r
    cases r with
    | nil => rfl
    | cons k rest => simp [coerceRowInt]

/-- Claim C2 witness: a textual cell parses to nothing and coerces to
zero, and coercing a three-cell row keeps three cells. -/
theorem claim_C2_zero_fill_witness :
    toNumeric (Cell.str "n/a") = none ∧
    coerceFillZero (Cell.str "n/a") = Dec.ofInt 0 ∧
    (coerceRowInt [Cell.str "1990", Cell.str "n/a", Cell.empty]).length = 3 :=
  ⟨by decide, claim_C2_zero_fill.1 (Cell.str "n/a") (by decide),
    claim_C2_zero_fill.2 [Cell.str "1990", Cell.str "n/a", Cell.empty]⟩

/-- Claim C3, counterexample: the claim says a string with no leading
digits yields ratio 0.0, but the extraction takes the first digit run
anywhere in the string: M/100F starts with a non-digit yet yields 1,
not 0. -/
theorem claim_C3_counterexample :
    "M/100F".data.head? = some 'M' ∧ isDigitB 'M' = false ∧
    sexRatioOf "M/100F" = 1 := by
  have h100 : extractNum "M/100F" = some 100 := by decide
  refine ⟨rfl, by decide, ?_⟩
  rw [sexRatioOf, h100]
  norm_num

/-- Claim C3, amended: 71M/100F maps to 0.71; a string with no digit
anywhere maps to 0.0; in general the first digit run anywhere in the
string, divided by 100, is the ratio. -/
theorem claim_C3_amended :
    sexRatioOf "71M/100F" = 71 / 100 ∧
    (∀ s : String, s.data.all (fun c => !isDigitB c) = true →
        sexRatioOf s = 0) ∧
    (∀ s : String, ∀ n : Nat, extractNum s = some n →
        sexRatioOf s = (n : Rat) / 100) := by
  have hnone : ∀ cs : List Char, cs.all (fun c => !isDigitB c) = true →
      firstDigitRun cs = none := by
    intro cs
    induction cs with
    | nil => intro _; rfl
    | cons c t ih =>
      intro h
      simp only [List.all_cons, Bool.and_eq_true, Bool.not_eq_true'] at h
      simp only [firstDigitRun, h.1, Bool.false_eq_true, if_false]
      exact ih h.2
  have h71 : extractNum "71M/100F" = some 71 := by decide
  refine ⟨?_, ?_, ?_⟩
  · rw [sexRatioOf, h71]
    norm_num
  · intro s h
    simp [sexRatioOf, extractNum, hnone s.data h]
  · intro s n h
    simp [sexRatioOf, h]

/-- Claim C3 witness: a fully digit-free string yields ratio zero, and
a string whose digit run is 71 yields 71/100. -/
theorem claim_C3_amended_witness :
    sexRatioOf "N/A" = 0 ∧ sexRatioOf "71M/100F" = 71 / 100 :=
  ⟨claim_C3_amended.2.1 "N/A" (by decide), claim_C3_amended.1⟩

/-- Claim C4, counterexample: the claim says the canonical names replace
the labels if and only if the counts are equal, in every pipeline.  The
Occupation-style override fires on a 43-column table although the
canonical list has 42 names. -/
theorem claim_C4_counterexample :
    (List.replicate 43 "x").length ≠ occuExpected.length ∧
    (overrideTrunc occuExpected
        { headers := List.replicate 43 "x", rows := [] }).headers
      = occuExpected := by
  refine ⟨by decide, by decide⟩

/-- Claim C4, amended: the MajorCountry override replaces the labels
exactly when the counts are equal and is skipped otherwise; the
Occupation, Sex, CivilStatus and Educ override fires whenever at least
as many columns as names were detected (truncating the extras) and is
skipped only when fewer were detected. -/
theorem claim_C4_override :
    (∀ expected labels : List String, labels.length = expected.length →
        overrideEq expected labels = expected) ∧
    (∀ expected labels : List String, labels.length ≠ expected.length →
        overrideEq expected labels = labels) ∧
    (∀ expected : List String, ∀ t : Table,
        expected.length ≤ t.headers.length →
        (overrideTrunc expected t).headers = expected) ∧
    (∀ expected : List String, ∀ t : Table,
        t.headers.length < expected.length →
        overrideTrunc expected t = t) := by
  refine ⟨?_, ?_, ?_, ?_⟩
  · intro e l h
    simp [overrideEq, h]
  · intro e l h
    simp [overrideEq, h]
  · intro e t h
    simp [overrideTrunc, h]
  · intro e t h
    have hn : ¬ e.length ≤ t.headers.length := by omega
    simp [overrideTrunc, hn]

/-- Claim C4 witness: the equality override skips on a one-column table;
the truncating override fires on nine columns against eight names and
skips on one column. -/
theorem claim_C4_override_witness :
    overrideEq majorExpected ["YEAR"] = ["YEAR"] ∧
    (overrideTrunc civilExpected
        { headers := List.replicate 9 "c", rows := [] }).headers
      = civilExpected ∧
    overrideTrunc civilExpected { headers := ["YEAR"], rows := [] }
      = { headers := ["YEAR"], rows := [] } :=
  ⟨claim_C4_override.2.1 majorExpected ["YEAR"] (by decide),
    claim_C4_override.2.2.1 civilExpected
      { headers := List.replicate 9 "c", rows := [] } (by decide),
    claim_C4_override.2.2.2 civilExpected
      { headers := ["YEAR"], rows := [] } (by decide)⟩

/-- Claim C5 (confirmed): the multi-sheet pipeline processes each sheet
independently (the result at any index depends only on that sheet), a
sheet whose cleaning raises degrades to the empty table with a reported
message, and in a concrete three-sheet workbook a failing PROVINCE sheet
leaves REGION and MUNICIPALITY with valid nonempty tables. -/
theorem claim_C5_sheet_isolation :
    (∀ sheets : List RawSheet, ∀ i : Nat,
        (displayPlace sheets)[i]? = (sheets[i]?).map processSheet) ∧
    (∀ s : RawSheet, cleanSheetCore s.name s.grid = none →
        processSheet s = { name := s.name, table := emptyTable, warned := true }) ∧
    ((displayPlace [regionSheetEx, provinceSheetEx, muniSheetEx]).map
        (fun res => (res.name, res.warned, res.table.rows.isEmpty)) =
      [("REGION", false, false), ("PROVINCE", true, true),
        ("MUNICIPALITY", false, false)]) := by
  refine ⟨?_, ?_, by decide⟩
  · intro sheets i
    simp [displayPlace]
  · intro s h
    simp [processSheet, h]

/-- Claim C5 witness: the short PROVINCE sheet fails and degrades to the
empty table with a warning. -/
theorem claim_C5_sheet_isolation_witness :
    processSheet provinceSheetEx
      = { name := "PROVINCE", table := emptyTable, warned := true } :=
  claim_C5_sheet_isolation.2.1 provinceSheetEx (by decide)

/-- Claim C6 (confirmed): reshaping yields one record per (row, year
column) pair: the record count is the row count times the number of
four-digit-year columns, every produced record has a four-digit-year
name, such a name can never contain TOTAL, INC or UNNAMED, and the
concrete table with columns Key, 1990, 1991, TOTAL yields exactly two
records per row and none for TOTAL. -/
theorem claim_C6_reshape :
    (∀ t : Table, (∀ r ∈ t.rows, r.length = t.headers.length) →
        (reshapeYears t).length =
          t.rows.length * ((t.headers.drop 1).countP isYearName)) ∧
    (∀ t : Table, ∀ lr ∈ reshapeYears t,
        isYearName lr.year = true ∧ containsCI lr.year "TOTAL" = false ∧
          containsCI lr.year "INC" = false ∧
          containsCI lr.year "UNNAMED" = false) ∧
    ((reshapeYears c6Table).length = 2 * c6Table.rows.length ∧
      (reshapeYears c6Table).all (fun lr => !(lr.year == "TOTAL")) = true) := by
  refine ⟨?_, ?_, by decide⟩
  · intro t h
    exact meltRows_year_len t.headers t.rows h
  · intro t lr hmem
    unfold reshapeYears at hmem
    have hyear0 := List.of_mem_filter hmem
    have hyear : isYearName lr.year = true := hyear0
    refine ⟨hyear, ?_, ?_, ?_⟩
    · exact containsCI_false_of_year lr.year "TOTAL" hyear 'T'
        ['O', 'T', 'A', 'L'] (by decide) (by decide)
    · exact containsCI_false_of_year lr.year "INC" hyear 'I'
        ['N', 'C'] (by decide) (by decide)
    · exact containsCI_false_of_year lr.year "UNNAMED" hyear 'U'
        ['N', 'N', 'A', 'M', 'E', 'D'] (by decide) (by decide)

/-- Claim C6 witness: the concrete table satisfies the counting law and
its first record is a year record free of the excluded tokens. -/
theorem claim_C6_reshape_witness :
    (reshapeYears c6Table).length =
      c6Table.rows.length * ((c6Table.headers.drop 1).countP isYearName) ∧
    (isYearName (LongRec.mk "0-4" "1990" (Cell.num (Dec.ofInt 1))).year = true ∧
      containsCI (LongRec.mk "0-4" "1990" (Cell.num (Dec.ofInt 1))).year "TOTAL" = false ∧
      containsCI (LongRec.mk "0-4" "1990" (Cell.num (Dec.ofInt 1))).year "INC" = false ∧
      containsCI (LongRec.mk "0-4" "1990" (Cell.num (Dec.ofInt 1))).year "UNNAMED" = false) :=
  ⟨claim_C6_reshape.1 c6Table (by decide),
    claim_C6_reshape.2.1 c6Table (LongRec.mk "0-4" "1990" (Cell.num (Dec.ofInt 1)))
      (by decide)⟩

/-- Claim C7 (confirmed): occupation grouping uses exact membership: a
label in the Employed list is tagged Employed; a label in neither list
is tagged None, is excluded from the group-comparison view, and remains
present (with its CATEGORY cell) in the base table; membership is by
whole string, so the substring Sales of Sales Workers matches nothing. -/
theorem claim_C7_grouping :
    (∀ x ∈ employedList, classifyOccu x = some "Employed") ∧
    (∀ x : String, x ∉ employedList → x ∉ unemployedList →
        classifyOccu x = none) ∧
    (∀ t : Table, ∀ r ∈ t.rows, classifyOccu (keyString r) = none →
        appendCategory r ∉ occuFiltered t) ∧
    (∀ t : Table, ∀ r ∈ t.rows, appendCategory r ∈ (occuBase t).rows) ∧
    (classifyOccu "Sales Workers" = some "Employed" ∧
      classifyOccu "Sales" = none) := by
  refine ⟨?_, ?_, ?_, ?_, by decide⟩
  · intro x hx
    simp [classifyOccu, hx]
  · intro x h1 h2
    simp [classifyOccu, h1, h2]
  · intro t r _ hnone hmem
    unfold occuFiltered at hmem
    have hp := List.of_mem_filter hmem
    simp only [Bool.and_eq_true, Bool.not_eq_true'] at hp
    have hA : appendCategory r = r ++ [Cell.empty] := by
      unfold appendCategory
      rw [hnone]
    rcases hp with ⟨h1, _⟩
    rw [hA] at h1
    have hl : (r ++ [Cell.empty]).length - 1 = r.length := by simp
    rw [hl] at h1
    have h2 : getCell (r ++ [Cell.empty]) r.length = Cell.empty :=
      getD_append_singleton r Cell.empty
    rw [h2] at h1
    simp [Cell.isNa] at h1
  · intro t r hr
    exact List.mem_map_of_mem appendCategory hr

/-- Claim C7 witness: Clerical Workers classifies as Employed; the label
Fisherfolk is in neither list, is excluded from the comparison view of a
concrete table, and remains in its base table. -/
theorem claim_C7_grouping_witness :
    classifyOccu "Clerical Workers" = some "Employed" ∧
    classifyOccu "Fisherfolk" = none ∧
    appendCategory [Cell.str "Fisherfolk", Cell.num (Dec.ofInt 1)] ∉ occuFiltered occuExTable ∧
    appendCategory [Cell.str "Fisherfolk", Cell.num (Dec.ofInt 1)] ∈ (occuBase occuExTable).rows :=
  ⟨claim_C7_grouping.1 "Clerical Workers" (by decide),
    claim_C7_grouping.2.1 "Fisherfolk" (by decide) (by decide),
    claim_C7_grouping.2.2.1 occuExTable [Cell.str "Fisherfolk", Cell.num (Dec.ofInt 1)]
      (by decide) (by decide),
    claim_C7_grouping.2.2.2.1 occuExTable [Cell.str "Fisherfolk", Cell.num (Dec.ofInt 1)]
      (by decide)⟩

/-- Claim C8, counterexample: the claim says every pipeline keeps exactly
one row per key.  The CivilStatus pipeline has no deduplication: two
rows keyed 1990 both survive cleaning, unmerged. -/
theorem claim_C8_counterexample :
    (civilClean c8Table).rows.map keyString = ["1990", "1990"] ∧
    (civilClean c8Table).rows =
      [[Cell.str "1990", Cell.num (Dec.ofInt 1)], [Cell.str "1990", Cell.num (Dec.ofInt 2)]] := by
  decide

/-- Claim C8, amended: only the AllCountries pipeline deduplicates: its
cleaned output has pairwise-distinct keys, and the row kept for any key
is exactly the first occurrence (the first match in the deduplicated
rows equals the first match in the original rows). -/
theorem claim_C8_dedup :
    (∀ t : Table, ((countryClean t).rows.map keyString).Nodup) ∧
    (∀ rows : List (List Cell), ∀ k : String,
        (dedupFirst rows []).find? (fun r => keyString r == k) =
          rows.find? (fun r => keyString r == k)) := by
  constructor
  · intro t
    simp only [countryClean]
    rw [List.map_map]
    have hcong : (dedupFirst (countryStage4 t) []).map (keyString ∘ addTotal)
        = (dedupFirst (countryStage4 t) []).map keyString := by
      apply List.map_congr_left
      intro r hr
      have hr4 := mem_of_mem_dedupFirst _ _ _ hr
      unfold countryStage4 at hr4
      rcases List.mem_map.mp hr4 with ⟨r2, hr2, hco⟩
      rcases countryStage2_shape (List.mem_of_mem_filter hr2) with ⟨s, tail, hshape⟩
      subst hshape
      rw [← hco]
      rfl
    rw [hcong]
    exact dedupFirst_keys_nodup _ _
  · intro rows k
    exact dedupFirst_find? rows [] k (by simp)

/-- Claim C9, counterexample: the claim says every pipeline prunes
fully-empty rows.  The Age pipeline applies no pruning at all: a grid
with a fully-empty data row keeps that row in its cleaned table. -/
theorem claim_C9_counterexample :
    c9Grid.any rowAllNa = true ∧ (ageClean c9Grid).rows.any rowAllNa = true := by
  decide

/-- Claim C9, amended: in the AllCountries pipeline every cleaned row is
nonempty and every one of its cells is non-missing (the key filter and
the zero-fill coercion leave no NaN), hence no fully-empty row, no
missing-key row, and every in-range column has a value in every row. -/
theorem claim_C9_pruning :
    ∀ t : Table,
      (∀ r ∈ (countryClean t).rows, r ≠ [] ∧ ∀ c ∈ r, c.isNa = false) ∧
      (∀ j : Nat, (∃ r ∈ (countryClean t).rows, j < r.length) →
        ∃ r ∈ (countryClean t).rows, (getCell r j).isNa = false) := by
  intro t
  have hmain : ∀ r ∈ (countryClean t).rows, r ≠ [] ∧ ∀ c ∈ r, c.isNa = false := by
    intro r hr
    simp only [countryClean] at hr
    rcases List.mem_map.mp hr with ⟨r1, hr1, hadd⟩
    have hr4 := mem_of_mem_dedupFirst _ _ _ hr1
    unfold countryStage4 at hr4
    rcases List.mem_map.mp hr4 with ⟨r2, hr2, hco⟩
    rcases countryStage2_shape (List.mem_of_mem_filter hr2) with ⟨s, tail, hshape⟩
    subst hshape
    rw [← hadd, ← hco]
    constructor
    · simp [coerceRowInt, addTotal]
    · intro c hc
      simp only [coerceRowInt, addTotal, List.cons_append, List.mem_cons,
        List.mem_append, List.mem_map, List.mem_singleton] at hc
      rcases hc with rfl | ⟨x, hx, rfl⟩ | rfl | h0
      · rfl
      · rfl
      · rfl
      · cases h0
  refine ⟨hmain, ?_⟩
  intro j hj
  rcases hj with ⟨r, hr, hlen⟩
  refine ⟨r, hr, ?_⟩
  have hcell : getCell r j = r.get ⟨j, hlen⟩ := by
    simp [getCell, List.getD_eq_getElem?_getD, List.getElem?_eq_getElem hlen,
      List.get_eq_getElem]
  rw [hcell]
  exact (hmain r hr).2 _ (List.get_mem r j hlen)

/-- Claim C9 witness: the surviving row of the concrete AllCountries
table is nonempty with every cell present. -/
theorem claim_C9_pruning_witness :
    ([Cell.str "Japan", Cell.num (Dec.ofInt 7), Cell.num (Dec.ofInt 7)] : List Cell) ≠ [] ∧
    ∀ c ∈ ([Cell.str "Japan", Cell.num (Dec.ofInt 7), Cell.num (Dec.ofInt 7)] : List Cell),
      c.isNa = false :=
  (claim_C9_pruning c1CountryTable).1
    [Cell.str "Japan", Cell.num (Dec.ofInt 7), Cell.num (Dec.ofInt 7)] (by decide)

/-- Claim C10, counterexample: the claim says every cleaned row has at
least one nonzero numeric cell.  The zero-sum filter runs on the
coerced float values before the astype(int) truncation, so a row whose
only value is 0.4 survives the filter and truncates to the all-zero
row: its cleaned numeric cells are all zero. -/
theorem claim_C10_counterexample :
    (cleanSheetCore "PROVINCE" c10FracGrid).map (fun t => t.rows)
      = some [[Cell.str "X", Cell.num (Dec.ofInt 0)]] ∧
    (([Cell.str "X", Cell.num (Dec.ofInt 0)] : List Cell).drop 1).all
      (fun c => (cellNumVal c).isZero) = true := by
  decide

/-- Claim C10, amended: every row of every cleaned place-of-origin sheet
is the truncation of a row whose pre-truncation numeric sum (missing as
zero) is nonzero, hence with at least one nonzero pre-truncation cell;
rows whose coerced cells sum to zero, genuine all-zero rows included,
are removed (in the concrete sheet the all-zero Bohol row disappears
and only Cebu survives).  Because the filter precedes the astype(int)
truncation, a purely fractional row can still truncate to all-zero
cells in the final table. -/
theorem claim_C10_amended :
    (∀ (sheet : String) (g : List (List Cell)) (t : Table),
        cleanSheetCore sheet g = some t →
        ∀ r ∈ t.rows, ∃ r0, r = truncRow r0 ∧
          (rowNumSum r0).isZero = false ∧
          ∃ c ∈ r0.drop 1, (cellNumVal c).isZero = false) ∧
    ((cleanSheetCore "PROVINCE" c10Grid).map (fun t => t.rows.map keyString)
        = some ["Cebu"]) := by
  constructor
  · intro sheet g t h r hr
    unfold cleanSheetCore at h
    rcases Option.map_eq_some'.mp h with ⟨p, _, hp⟩
    rw [← hp] at hr
    have hr2 : r ∈ sheetFinish p.2 := hr
    unfold sheetFinish at hr2
    rcases List.mem_map.mp hr2 with ⟨r0, hr0, htr⟩
    rcases sheetKept_mem hr0 with ⟨hz, hcell⟩
    exact ⟨r0, htr.symm, hz, hcell⟩
  · decide

/-- Claim C10 witness: the cleaned Cebu row is the truncation of a kept
row with nonzero pre-truncation sum and a nonzero cell. -/
theorem claim_C10_amended_witness :
    ∃ r0, ([Cell.str "Cebu", Cell.num (Dec.ofInt 7), Cell.num (Dec.ofInt 0)] :
        List Cell) = truncRow r0 ∧
      (rowNumSum r0).isZero = false ∧
      ∃ c ∈ r0.drop 1, (cellNumVal c).isZero = false :=
  claim_C10_amended.1 "PROVINCE" c10Grid
    { headers := ["PROVINCE", "1988", "1989"],
      rows := [[Cell.str "Cebu", Cell.num (Dec.ofInt 7), Cell.num (Dec.ofInt 0)]] }
    (by decide)
    [Cell.str "Cebu", Cell.num (Dec.ofInt 7), Cell.num (Dec.ofInt 0)] (by decide)